import Mathlib

/-!
Shallow embedding of the crash-safe rate-limited poller.

The program is a Node.js process with two source variants. The primary
variant defines the schedule constants, the wait computation
(`waitBeforePoll` / `necessaryTime`), the status projection (`getStatus`),
the persisted-database loader (`getDB`) and the main polling loop. The
second variant is an earlier copy of the same program whose `main` builds
the request URL differently; only that difference is embedded separately.

JavaScript runtime values that flow through the program (the two persisted
timestamps, the parsed response payload, the in-memory status) are modelled
by the inductive type `JS`. Finite numbers are modelled as rationals (every
value appearing in the program's arithmetic is exact in IEEE doubles, see
the comment on `CPU_TOLERANCE_MS`); `NaN` is a separate constructor since
the program explicitly guards against it. Durations and instants are in
milliseconds. Functions that sleep are modelled as returning the slept
duration; the loop body is modelled as a function from its inputs (previous
state, the two clock readings, and the transport outcome) to a record of
its observable effects.
-/

/-- A JavaScript runtime value, as far as this program inspects values:
`null`, `undefined`, `NaN`, finite numbers, strings, booleans, arrays and
plain objects (a list of named fields). -/
inductive JS where
  | null : JS
  | undefined : JS
  | nan : JS
  | num : ℚ → JS
  | str : String → JS
  | bool : Bool → JS
  | arr : List JS → JS
  | obj : List (String × JS) → JS

/-- JavaScript truthiness: `null`, `undefined`, `NaN`, `0`, `""` and
`false` are falsy; every other value (including empty arrays and objects)
is truthy. -/
def truthy : JS → Bool
  | JS.null => false
  | JS.undefined => false
  | JS.nan => false
  | JS.num q => q != 0
  | JS.str s => s != ""
  | JS.bool b => b
  | JS.arr _ => true
  | JS.obj _ => true

/-- Embedding of `typeof v === "string"`. -/
def isString : JS → Bool
  | JS.str _ => true
  | _ => false

/-- Source `isNumber(value)`: `typeof value === "number" && value === value`.
`typeof NaN` is `"number"` but `NaN === NaN` is false, so `JS.nan` falls
through to the catch-all and the guard rejects it, exactly as in the source. -/
def isNumber : JS → Bool
  | JS.num _ => true
  | _ => false

/-- Property access `v.name`: a field lookup on objects, `undefined` on a
missing field and on every non-object (the program only reads the fields
`data`, `evses` and `status`, which do not exist on primitives). -/
def JS.getField : JS → String → JS
  | JS.obj fields, name =>
      match fields.find? (fun p => p.1 == name) with
      | some p => p.2
      | none => JS.undefined
  | _, _ => JS.undefined

/-- Index access `v[i]`: array element, single-character string for string
indexing, `undefined` when out of range or on any other value. -/
def JS.idx : JS → Nat → JS
  | JS.arr elems, i =>
      match elems.get? i with
      | some v => v
      | none => JS.undefined
  | JS.str s, i =>
      match s.data.get? i with
      | some c => JS.str (String.mk [c])
      | none => JS.undefined
  | _, _ => JS.undefined

/-- The numeric value of a `JS` value; only ever applied behind an
`isNumber` guard, mirroring the source where the comparison and the
arithmetic only run on values that passed `isNumber`. -/
def numVal : JS → ℚ
  | JS.num q => q
  | _ => 0

/-- Source `API_MIN_INTERVAL_MS = 1000 * 60 * 5`: the official minimum
query interval allowed by the API provider, five minutes in milliseconds. -/
def API_MIN_INTERVAL_MS : ℚ := 1000 * 60 * 5

/-- Source `CPU_TOLERANCE_MS = (API_MIN_INTERVAL_MS / 1000000) * 40`: the
40 parts-per-million clock-drift margin. Over the rationals this is exactly
12; the JavaScript double computation also yields exactly 12 (the rounded
product `0.3 * 40` is the double `12`), so the rational model is exact. -/
def CPU_TOLERANCE_MS : ℚ := (API_MIN_INTERVAL_MS / 1000000) * 40

/-- Source `WAIT_TIME_MS = API_MIN_INTERVAL_MS + CPU_TOLERANCE_MS`: the
actual wait time between queries, adjusted for CPU clock errors. -/
def WAIT_TIME_MS : ℚ := API_MIN_INTERVAL_MS + CPU_TOLERANCE_MS

/-- Source `MAX_QUERY_RECEPTION_DELAY_MS = 1000 * 60`: assumed upper bound
on the time between sending a query and the API checking it. -/
def MAX_QUERY_RECEPTION_DELAY_MS : ℚ := 1000 * 60

/-- Source `necessaryTime(waitStartDate, timeToWait)` evaluated at clock
reading `now`: it computes `timePassed = Date.now() - waitStartDate`,
returns without waiting when `timePassed >= timeToWait`, and otherwise
sleeps `timeToWait - timePassed`. Modelled as the slept duration. -/
def necessaryTime (waitStartDate timeToWait now : ℚ) : ℚ :=
  let timePassed := now - waitStartDate
  if timePassed ≥ timeToWait then 0 else timeToWait - timePassed

/-- Source `waitBeforePoll(lastResponse, lastQuery)` evaluated at clock
reading `now`, modelled as the slept duration. The branch structure is the
source's: the outer `isNumber(lastQuery)` guard (no wait at all when it
fails), the inner `isNumber(lastResponse)` guard, and the
`lastResponse < lastQuery` comparison choosing between the conservative
anchor (`lastQuery`, wait `MAX_QUERY_RECEPTION_DELAY_MS + WAIT_TIME_MS`)
and the fast anchor (`lastResponse`, wait `WAIT_TIME_MS`). -/
def waitBeforePoll (lastResponse lastQuery : JS) (now : ℚ) : ℚ :=
  if isNumber lastQuery then
    if isNumber lastResponse then
      if numVal lastResponse < numVal lastQuery then
        necessaryTime (numVal lastQuery)
          (MAX_QUERY_RECEPTION_DELAY_MS + WAIT_TIME_MS) now
      else
        necessaryTime (numVal lastResponse) WAIT_TIME_MS now
    else
      necessaryTime (numVal lastQuery)
        (MAX_QUERY_RECEPTION_DELAY_MS + WAIT_TIME_MS) now
  else
    0

/-- Source `getStatus(res)`: returns `res.data.evses[0].status` when
`res`, `res.data`, `res.data.evses` and `res.data.evses[0]` are all truthy
and the status field is a string, and `null` otherwise. The source guard is
a short-circuit `&&` chain, mirrored by `Bool` conjunction. -/
def getStatus (res : JS) : JS :=
  let evses0 := ((res.getField "data").getField "evses").idx 0
  if truthy res && truthy (res.getField "data") &&
      truthy ((res.getField "data").getField "evses") && truthy evses0 &&
      isString (evses0.getField "status") then
    evses0.getField "status"
  else
    JS.null

/-- The record returned by `getDB`: the two persisted timestamps plus the
`corrupt` flag the loader attaches. -/
structure DBRecord where
  lastAPIResponseTime : JS
  lastAPIQueryTime : JS
  corrupt : Bool

/-- The outcome of `require(dbPath)` inside `getDB`: a successful parse
carrying the two stored fields, a `MODULE_NOT_FOUND` error (no db file),
a `SyntaxError` (malformed JSON), or any other error. -/
inductive LoadResult where
  | ok : JS → JS → LoadResult
  | moduleNotFound : LoadResult
  | syntaxError : LoadResult
  | otherError : LoadResult

/-- Source `getDB(dbPath)`: on a successful parse it sets `db.corrupt =
false` and returns the record; on `MODULE_NOT_FOUND` it returns a copy of
`DEFAULT_DB` (both timestamps `null`) with `corrupt = false`; on a
`SyntaxError` it returns a copy of `DEFAULT_DB` with `corrupt = true`; any
other error is rethrown, modelled by `Except.error`. -/
def getDB : LoadResult → Except Unit DBRecord
  | LoadResult.ok lr lq => Except.ok ⟨lr, lq, false⟩
  | LoadResult.moduleNotFound => Except.ok ⟨JS.null, JS.null, false⟩
  | LoadResult.syntaxError => Except.ok ⟨JS.null, JS.null, true⟩
  | LoadResult.otherError => Except.error ()

/-- The sleeps `main` performs between loading the database and entering
the `waitAndCall` loop: exactly one sleep of `MAX_QUERY_RECEPTION_DELAY_MS
+ WAIT_TIME_MS` when `db.corrupt`, and none otherwise. -/
def startupSleeps (db : DBRecord) : List ℚ :=
  if db.corrupt then [MAX_QUERY_RECEPTION_DELAY_MS + WAIT_TIME_MS] else []

/-- The outcome of `await axios.get(...)` in one loop iteration: a response
value, an error with `error.isAxiosError` truthy (a transport-class
failure), or any other thrown error. -/
inductive TransportOutcome where
  | success : JS → TransportOutcome
  | axiosError : TransportOutcome
  | otherError : TransportOutcome

/-- The observable effects of one `waitAndCall` iteration after its sleep:
the updated loop variables, the sequence of `setDB(lastResponse,
lastQuery)` writes, the emitted status notification (the status string
printed) if any, and whether the iteration rethrew an error (terminating
the loop). -/
structure IterResult where
  lastResponse : JS
  lastQuery : JS
  chargingStationStatus : JS
  setDBCalls : List (JS × JS)
  notified : Option String
  raised : Bool

/-- The comparison `status !== chargingStationStatus` as executed in the
source, where `status` is already known to be a string: a string is
strictly equal only to an equal string, and strictly unequal to every
non-string value. -/
def statusDiffers (s : String) (chargingStationStatus : JS) : Bool :=
  match chargingStationStatus with
  | JS.str t => s != t
  | _ => true

/-- One iteration of the `waitAndCall` loop body after its `waitBeforePoll`
sleep, from the source's `main`. `queryTime` and `responseTime` are the two
`Date.now()` readings. Steps, in source order: record the query time and
persist; perform the transport call; on an axios error record the response
time, persist and continue; on any other error rethrow (the first persist
has already happened); on success record the response time, persist,
project the status with `getStatus`, and when it is a string different
(strict `!==`) from `chargingStationStatus`, print the notification and
update `chargingStationStatus`. -/
def loopIteration (lastResponse lastQuery chargingStationStatus : JS)
    (queryTime responseTime : ℚ) (outcome : TransportOutcome) : IterResult :=
  let lastQuery2 := JS.num queryTime
  let firstWrite := (lastResponse, lastQuery2)
  match outcome with
  | TransportOutcome.axiosError =>
      let lastResponse2 := JS.num responseTime
      { lastResponse := lastResponse2
        lastQuery := lastQuery2
        chargingStationStatus := chargingStationStatus
        setDBCalls := [firstWrite, (lastResponse2, lastQuery2)]
        notified := none
        raised := false }
  | TransportOutcome.otherError =>
      { lastResponse := lastResponse
        lastQuery := lastQuery2
        chargingStationStatus := chargingStationStatus
        setDBCalls := [firstWrite]
        notified := none
        raised := true }
  | TransportOutcome.success res =>
      let lastResponse2 := JS.num responseTime
      let status := getStatus res
      match status with
      | JS.str s =>
          if statusDiffers s chargingStationStatus then
            { lastResponse := lastResponse2
              lastQuery := lastQuery2
              chargingStationStatus := JS.str s
              setDBCalls := [firstWrite, (lastResponse2, lastQuery2)]
              notified := some s
              raised := false }
          else
            { lastResponse := lastResponse2
              lastQuery := lastQuery2
              chargingStationStatus := chargingStationStatus
              setDBCalls := [firstWrite, (lastResponse2, lastQuery2)]
              notified := none
              raised := false }
      | _ =>
          { lastResponse := lastResponse2
            lastQuery := lastQuery2
            chargingStationStatus := chargingStationStatus
            setDBCalls := [firstWrite, (lastResponse2, lastQuery2)]
            notified := none
            raised := false }

/-- The URL passed to `axios.get` by the primary variant's `main`:
`options.url`, unmodified. -/
def requestURL_part000 (url : String) : String := url

/-- The URL passed to `axios.get` by the second variant's `main`:
`options.url + "fango"`. -/
def requestURL_part001 (url : String) : String := url ++ "fango"

/-! ## Helper lemmas -/

/-- The slept duration of `necessaryTime` is the clamped difference
`max 0 (timeToWait - (now - waitStartDate))`. -/
theorem necessaryTime_eq_max (a t now : ℚ) :
    necessaryTime a t now = max 0 (t - (now - a)) := by
  simp only [necessaryTime]
  split_ifs with h
  · exact (max_eq_left (by linarith)).symm
  · exact (max_eq_right (by linarith)).symm

/-- `necessaryTime` never sleeps a negative duration. -/
theorem necessaryTime_nonneg (a t now : ℚ) : 0 ≤ necessaryTime a t now := by
  rw [necessaryTime_eq_max]
  exact le_max_left 0 _

/-- `waitBeforePoll` never sleeps a negative duration. -/
theorem waitBeforePoll_nonneg (lastResponse lastQuery : JS) (now : ℚ) :
    0 ≤ waitBeforePoll lastResponse lastQuery now := by
  unfold waitBeforePoll
  split_ifs <;> first
    | exact necessaryTime_nonneg _ _ _
    | exact le_refl 0

/-- In the conservative branch (numeric `lastQuery`, and `lastResponse`
either failing `isNumber` or numerically below `lastQuery`), the wait is
anchored at `lastQuery` with target `MAX_QUERY_RECEPTION_DELAY_MS +
WAIT_TIME_MS`. -/
theorem waitBeforePoll_query_anchor (lr : JS) (q now : ℚ)
    (h : isNumber lr = false ∨ ∃ r : ℚ, lr = JS.num r ∧ r < q) :
    waitBeforePoll lr (JS.num q) now =
      max 0 (MAX_QUERY_RECEPTION_DELAY_MS + WAIT_TIME_MS - (now - q)) := by
  rcases h with h | ⟨r, rfl, hlt⟩
  · unfold waitBeforePoll
    rw [h]
    simp [isNumber, numVal, necessaryTime_eq_max]
  · simp [waitBeforePoll, isNumber, numVal, hlt, necessaryTime_eq_max]

/-- In the fast branch (both timestamps numeric with `lastResponse` not
below `lastQuery`), the wait is anchored at `lastResponse` with target
`WAIT_TIME_MS`. -/
theorem waitBeforePoll_response_anchor (r q now : ℚ) (h : q ≤ r) :
    waitBeforePoll (JS.num r) (JS.num q) now =
      max 0 (WAIT_TIME_MS - (now - r)) := by
  simp [waitBeforePoll, isNumber, numVal, not_lt.mpr h, necessaryTime_eq_max]

/-! ## Claim theorems -/

/-- C1: for a numeric `lastQueryTime` and a `lastResponseTime` that is
absent (`null`) or strictly below it, `waitBeforePoll` waits exactly
`max 0 ((WAIT_TIME_MS + MAX_QUERY_RECEPTION_DELAY_MS) - (now - lastQueryTime))`:
zero once `now - lastQueryTime` has reached the target
`WAIT_TIME_MS + MAX_QUERY_RECEPTION_DELAY_MS`, and exactly the remaining
difference otherwise. -/
theorem C1_conservative_branch_wait (lr : JS) (q now : ℚ)
    (h : lr = JS.null ∨ ∃ r : ℚ, lr = JS.num r ∧ r < q) :
    waitBeforePoll lr (JS.num q) now =
      max 0 (WAIT_TIME_MS + MAX_QUERY_RECEPTION_DELAY_MS - (now - q)) ∧
    (WAIT_TIME_MS + MAX_QUERY_RECEPTION_DELAY_MS ≤ now - q →
      waitBeforePoll lr (JS.num q) now = 0) ∧
    (now - q < WAIT_TIME_MS + MAX_QUERY_RECEPTION_DELAY_MS →
      waitBeforePoll lr (JS.num q) now =
        WAIT_TIME_MS + MAX_QUERY_RECEPTION_DELAY_MS - (now - q)) := by
  have hgen : waitBeforePoll lr (JS.num q) now =
      max 0 (MAX_QUERY_RECEPTION_DELAY_MS + WAIT_TIME_MS - (now - q)) := by
    apply waitBeforePoll_query_anchor
    rcases h with rfl | ⟨r, hr, hlt⟩
    · exact Or.inl rfl
    · exact Or.inr ⟨r, hr, hlt⟩
  refine ⟨?_, ?_, ?_⟩
  · rw [hgen, add_comm MAX_QUERY_RECEPTION_DELAY_MS WAIT_TIME_MS]
  · intro hge
    rw [hgen]
    exact max_eq_left (by linarith)
  · intro hlt
    rw [hgen, max_eq_right (by linarith)]
    ring

/-- Witness for C1 at `lastResponseTime = null`, `lastQueryTime = 0`,
`now = 100`. -/
theorem C1_conservative_branch_wait_witness :
    waitBeforePoll JS.null (JS.num 0) 100 =
      max 0 (WAIT_TIME_MS + MAX_QUERY_RECEPTION_DELAY_MS - (100 - 0)) ∧
    (WAIT_TIME_MS + MAX_QUERY_RECEPTION_DELAY_MS ≤ 100 - 0 →
      waitBeforePoll JS.null (JS.num 0) 100 = 0) ∧
    (100 - 0 < WAIT_TIME_MS + MAX_QUERY_RECEPTION_DELAY_MS →
      waitBeforePoll JS.null (JS.num 0) 100 =
        WAIT_TIME_MS + MAX_QUERY_RECEPTION_DELAY_MS - (100 - 0)) :=
  C1_conservative_branch_wait JS.null 0 100 (Or.inl rfl)

/-- C2: for numeric timestamps with `lastResponseTime >= lastQueryTime`,
`waitBeforePoll` waits exactly
`max 0 (WAIT_TIME_MS - (now - lastResponseTime))`: zero once
`now - lastResponseTime` has reached `WAIT_TIME_MS`, and exactly the
remaining difference otherwise. -/
theorem C2_response_branch_wait (r q now : ℚ) (h : q ≤ r) :
    waitBeforePoll (JS.num r) (JS.num q) now =
      max 0 (WAIT_TIME_MS - (now - r)) ∧
    (WAIT_TIME_MS ≤ now - r → waitBeforePoll (JS.num r) (JS.num q) now = 0) ∧
    (now - r < WAIT_TIME_MS →
      waitBeforePoll (JS.num r) (JS.num q) now = WAIT_TIME_MS - (now - r)) := by
  have hgen := waitBeforePoll_response_anchor r q now h
  refine ⟨hgen, ?_, ?_⟩
  · intro hge
    rw [hgen]
    exact max_eq_left (by linarith)
  · intro hlt
    rw [hgen]
    exact max_eq_right (by linarith)

/-- Witness for C2 at `lastResponseTime = lastQueryTime = 0`, `now = 0`. -/
theorem C2_response_branch_wait_witness :
    waitBeforePoll (JS.num 0) (JS.num 0) 0 =
      max 0 (WAIT_TIME_MS - (0 - 0)) ∧
    (WAIT_TIME_MS ≤ 0 - 0 → waitBeforePoll (JS.num 0) (JS.num 0) 0 = 0) ∧
    (0 - 0 < WAIT_TIME_MS →
      waitBeforePoll (JS.num 0) (JS.num 0) 0 = WAIT_TIME_MS - (0 - 0)) :=
  C2_response_branch_wait 0 0 0 (le_refl 0)

/-- C3: for every combination of inputs (present, absent or malformed
timestamps) the computed wait is non-negative; and when every timestamp
that passes the numeric guard lies at least
`WAIT_TIME_MS + MAX_QUERY_RECEPTION_DELAY_MS` in the past, the wait
collapses to exactly zero rather than a negative value or an extra delay. -/
theorem C3_wait_nonneg (lr lq : JS) (now : ℚ) :
    0 ≤ waitBeforePoll lr lq now ∧
    ((isNumber lr = true →
        WAIT_TIME_MS + MAX_QUERY_RECEPTION_DELAY_MS ≤ now - numVal lr) →
     (isNumber lq = true →
        WAIT_TIME_MS + MAX_QUERY_RECEPTION_DELAY_MS ≤ now - numVal lq) →
     waitBeforePoll lr lq now = 0) := by
  refine ⟨waitBeforePoll_nonneg lr lq now, ?_⟩
  intro hr hq
  have hM : (0:ℚ) ≤ MAX_QUERY_RECEPTION_DELAY_MS := by
    norm_num [MAX_QUERY_RECEPTION_DELAY_MS]
  cases hlq : isNumber lq with
  | false => simp [waitBeforePoll, hlq]
  | true =>
    have hq2 := hq hlq
    have h0 : necessaryTime (numVal lq)
        (MAX_QUERY_RECEPTION_DELAY_MS + WAIT_TIME_MS) now = 0 := by
      rw [necessaryTime_eq_max]
      exact max_eq_left (by linarith)
    cases hlr : isNumber lr with
    | false => simp [waitBeforePoll, hlq, hlr, h0]
    | true =>
      have hr2 := hr hlr
      have h1 : necessaryTime (numVal lr) WAIT_TIME_MS now = 0 := by
        rw [necessaryTime_eq_max]
        exact max_eq_left (by linarith)
      simp [waitBeforePoll, hlq, hlr, h0, h1]

/-- Witness for C3 at two zero timestamps evaluated far in the future. -/
theorem C3_wait_nonneg_witness :
    waitBeforePoll (JS.num 0) (JS.num 0) 1000000 = 0 :=
  (C3_wait_nonneg (JS.num 0) (JS.num 0) 1000000).2
    (fun _ => by
      norm_num [numVal, WAIT_TIME_MS, API_MIN_INTERVAL_MS, CPU_TOLERANCE_MS,
        MAX_QUERY_RECEPTION_DELAY_MS])
    (fun _ => by
      norm_num [numVal, WAIT_TIME_MS, API_MIN_INTERVAL_MS, CPU_TOLERANCE_MS,
        MAX_QUERY_RECEPTION_DELAY_MS])

/-- C4 counterexample: the claimed effective-interval constant 300080 ms is
wrong. 40 parts-per-million of the 300000 ms minimum interval is 12 ms, so
`WAIT_TIME_MS` is 300012, and scenario B (`lastQueryTime = 0`,
`lastResponseTime = 1000`, `now = 101000`) waits 200012 ms, not 200080. -/
theorem C4_scenarioB_counterexample :
    WAIT_TIME_MS ≠ 300080 ∧
    waitBeforePoll (JS.num 1000) (JS.num 0) 101000 ≠ 200080 ∧
    WAIT_TIME_MS = 300012 ∧
    waitBeforePoll (JS.num 1000) (JS.num 0) 101000 = 200012 := by
  have hW : WAIT_TIME_MS = 300012 := by
    norm_num [WAIT_TIME_MS, API_MIN_INTERVAL_MS, CPU_TOLERANCE_MS]
  have hwait : waitBeforePoll (JS.num 1000) (JS.num 0) 101000 = 200012 := by
    have h := waitBeforePoll_response_anchor 1000 0 101000 (by norm_num)
    rw [h, hW]
    rw [show ((300012:ℚ) - (101000 - 1000)) = 200012 by norm_num]
    exact max_eq_right (by norm_num)
  refine ⟨by rw [hW]; norm_num, by rw [hwait]; norm_num, hW, hwait⟩

/-- C4 amended: with the 5-minute minimum interval and the 40
parts-per-million clock-tolerance margin, the margin is 12 ms and the
effective interval constant is 300012 ms, so for persisted
`lastQueryTime = T`, `lastResponseTime = T + 1000`, evaluated at
`now = T + 1000 + 100000`, the computed wait is exactly 200012 ms. -/
theorem C4_scenarioB_amended :
    CPU_TOLERANCE_MS = 12 ∧ WAIT_TIME_MS = 300012 ∧
    ∀ T : ℚ, waitBeforePoll (JS.num (T + 1000)) (JS.num T)
      (T + 1000 + 100000) = 200012 := by
  have hW : WAIT_TIME_MS = 300012 := by
    norm_num [WAIT_TIME_MS, API_MIN_INTERVAL_MS, CPU_TOLERANCE_MS]
  refine ⟨by norm_num [CPU_TOLERANCE_MS, API_MIN_INTERVAL_MS], hW, ?_⟩
  intro T
  have h := waitBeforePoll_response_anchor (T + 1000) T (T + 1000 + 100000)
    (by linarith)
  rw [h, hW]
  rw [show (T + 1000 + 100000 - (T + 1000)) = (100000:ℚ) by ring]
  rw [show ((300012:ℚ) - 100000) = 200012 by norm_num]
  exact max_eq_right (by norm_num)

/-- C5: a corrupted database (`SyntaxError` from the parse) loads as the
zero-state (both timestamps `null`) with the corrupt flag set, and a set
corrupt flag causes exactly one startup sleep of
`MAX_QUERY_RECEPTION_DELAY_MS + WAIT_TIME_MS` before the loop; an absent
database and a successful load come back with the flag clear, and a clear
flag causes no startup sleep. -/
theorem C5_corrupt_startup :
    getDB LoadResult.syntaxError = Except.ok ⟨JS.null, JS.null, true⟩ ∧
    (∀ db : DBRecord, db.corrupt = true →
      startupSleeps db = [MAX_QUERY_RECEPTION_DELAY_MS + WAIT_TIME_MS]) ∧
    getDB LoadResult.moduleNotFound = Except.ok ⟨JS.null, JS.null, false⟩ ∧
    (∀ lr lq : JS, getDB (LoadResult.ok lr lq) = Except.ok ⟨lr, lq, false⟩) ∧
    (∀ db : DBRecord, db.corrupt = false → startupSleeps db = []) := by
  refine ⟨rfl, ?_, rfl, fun lr lq => rfl, ?_⟩
  · intro db h
    simp [startupSleeps, h]
  · intro db h
    simp [startupSleeps, h]

/-- Witness for C5 on the concrete records produced by the loader. -/
theorem C5_corrupt_startup_witness :
    startupSleeps ⟨JS.null, JS.null, true⟩ =
      [MAX_QUERY_RECEPTION_DELAY_MS + WAIT_TIME_MS] ∧
    startupSleeps ⟨JS.null, JS.null, false⟩ = [] :=
  ⟨C5_corrupt_startup.2.1 ⟨JS.null, JS.null, true⟩ rfl,
   C5_corrupt_startup.2.2.2.2 ⟨JS.null, JS.null, false⟩ rfl⟩

/-- C6: when the transport call fails with an axios (transport-class)
error, the iteration records the response time, persists twice (after the
query and after the error), continues without raising, emits no
notification and leaves the observed status unchanged; when it fails with
any other error, the iteration raises (terminating the loop). -/
theorem C6_transport_error_iteration (lr lq cs : JS) (tq tr : ℚ) :
    (loopIteration lr lq cs tq tr TransportOutcome.axiosError).lastResponse
      = JS.num tr ∧
    (loopIteration lr lq cs tq tr TransportOutcome.axiosError).setDBCalls
      = [(lr, JS.num tq), (JS.num tr, JS.num tq)] ∧
    (loopIteration lr lq cs tq tr TransportOutcome.axiosError).raised
      = false ∧
    (loopIteration lr lq cs tq tr TransportOutcome.axiosError).notified
      = none ∧
    (loopIteration lr lq cs tq tr
      TransportOutcome.axiosError).chargingStationStatus = cs ∧
    (loopIteration lr lq cs tq tr TransportOutcome.otherError).raised
      = true :=
  ⟨rfl, rfl, rfl, rfl, rfl, rfl⟩


/-- The executed `status !== chargingStationStatus` comparison holds
exactly when the status string, as a `JS` value, differs from the observed
status value. -/
theorem statusDiffers_iff (s : String) (cs : JS) :
    statusDiffers s cs = true ↔ JS.str s ≠ cs := by
  cases cs <;> simp [statusDiffers]

/-- On a successful response whose extracted status is the string `s`, the
iteration notifies (and stores) `s` exactly when the executed strict
comparison against the observed status holds. -/
theorem loopIteration_success_status_str (lr lq cs : JS) (tq tr : ℚ)
    (res : JS) (s : String) (hst : getStatus res = JS.str s) :
    (loopIteration lr lq cs tq tr (TransportOutcome.success res)).notified =
      (if statusDiffers s cs then some s else none) ∧
    (loopIteration lr lq cs tq tr
        (TransportOutcome.success res)).chargingStationStatus =
      (if statusDiffers s cs then JS.str s else cs) := by
  simp only [loopIteration, hst]
  split_ifs <;> exact ⟨rfl, rfl⟩

/-- On a successful response whose extracted status is not a string, the
iteration notifies nothing and keeps the observed status. -/
theorem loopIteration_success_status_not_str (lr lq cs : JS) (tq tr : ℚ)
    (res : JS) (hst : isString (getStatus res) = false) :
    (loopIteration lr lq cs tq tr (TransportOutcome.success res)).notified
      = none ∧
    (loopIteration lr lq cs tq tr
        (TransportOutcome.success res)).chargingStationStatus = cs := by
  cases h2 : getStatus res
  case str s =>
    rw [h2] at hst
    exact absurd hst (by simp [isString])
  all_goals
    exact ⟨by simp [loopIteration, h2], by simp [loopIteration, h2]⟩

/-- C7 counterexample: the source checks only `typeof status === "string"`
with no non-emptiness test, so a response whose first entry has the empty
string as its status does trigger a notification when the observed status
differs (here: the initial `null`), contradicting the claim that an
empty-string status never triggers one. -/
theorem C7_empty_status_counterexample :
    getStatus (JS.obj [("data", JS.obj [("evses",
        JS.arr [JS.obj [("status", JS.str "")]])])]) = JS.str "" ∧
    (loopIteration JS.null JS.null JS.null 0 1
      (TransportOutcome.success (JS.obj [("data", JS.obj [("evses",
        JS.arr [JS.obj [("status", JS.str "")]])])]))).notified = some "" ∧
    (loopIteration JS.null JS.null JS.null 0 1
      (TransportOutcome.success (JS.obj [("data", JS.obj [("evses",
        JS.arr [JS.obj [("status", JS.str "")]])])]))).chargingStationStatus
      = JS.str "" :=
  ⟨rfl, rfl, rfl⟩

/-- C7 amended: on a successful response, a notification is emitted if and
only if the extracted status is a string — empty or not — that differs
(strict `!==`) from the in-memory observed status; when one is emitted it
carries exactly the extracted status and the observed status is updated to
it, and when none is emitted the observed status is unchanged. -/
theorem C7_status_change_iff (lr lq cs : JS) (tq tr : ℚ) (res : JS) :
    ((loopIteration lr lq cs tq tr
        (TransportOutcome.success res)).notified ≠ none ↔
      ∃ s : String, getStatus res = JS.str s ∧ JS.str s ≠ cs) ∧
    (∀ s : String,
      (loopIteration lr lq cs tq tr
        (TransportOutcome.success res)).notified = some s →
      getStatus res = JS.str s ∧
      (loopIteration lr lq cs tq tr
        (TransportOutcome.success res)).chargingStationStatus = JS.str s) ∧
    ((loopIteration lr lq cs tq tr
        (TransportOutcome.success res)).notified = none →
      (loopIteration lr lq cs tq tr
        (TransportOutcome.success res)).chargingStationStatus = cs) := by
  cases hst : getStatus res
  case str s0 =>
    obtain ⟨hn, hc⟩ :=
      loopIteration_success_status_str lr lq cs tq tr res s0 hst
    rw [hn, hc]
    by_cases hd : statusDiffers s0 cs = true
    · rw [if_pos hd, if_pos hd]
      refine ⟨?_, ?_, ?_⟩
      · constructor
        · intro _
          exact ⟨s0, rfl, (statusDiffers_iff s0 cs).mp hd⟩
        · intro _
          simp
      · intro s hs
        injection hs with hs
        subst hs
        exact ⟨rfl, rfl⟩
      · intro hcontra
        exact absurd hcontra (by simp)
    · rw [if_neg hd, if_neg hd]
      refine ⟨?_, ?_, ?_⟩
      · constructor
        · intro hcontra
          exact absurd rfl hcontra
        · rintro ⟨s, hs, hne⟩
          injection hs with hs
          subst hs
          exact absurd ((statusDiffers_iff s0 cs).mpr hne) hd
      · intro s hs
        exact absurd hs (by simp)
      · intro _
        rfl
  all_goals
    obtain ⟨hn, hc⟩ := loopIteration_success_status_not_str lr lq cs tq tr
      res (by rw [hst]; rfl)
  all_goals rw [hn, hc]
  all_goals simp

/-- Witness for C7 at a response carrying the status string
`"AVAILABLE"` against an initial `null` observed status. -/
theorem C7_status_change_iff_witness :
    (loopIteration JS.null JS.null JS.null 0 1
      (TransportOutcome.success (JS.obj [("data", JS.obj [("evses",
        JS.arr [JS.obj [("status", JS.str "AVAILABLE")]])])]))).notified
      = some "AVAILABLE" ∧
    (loopIteration JS.null JS.null JS.null 0 1
      (TransportOutcome.success (JS.obj [("data", JS.obj [("evses",
        JS.arr [JS.obj [("status",
          JS.str "AVAILABLE")]])])]))).chargingStationStatus
      = JS.str "AVAILABLE" := by
  have h := (C7_status_change_iff JS.null JS.null JS.null 0 1
    (JS.obj [("data", JS.obj [("evses",
      JS.arr [JS.obj [("status", JS.str "AVAILABLE")]])])])).2.1
    "AVAILABLE" rfl
  exact ⟨rfl, h.2⟩

/-- C8: the primary variant's `main` passes the configured target URL to
the transport unmodified, but the second variant's `main` appends the
literal string `"fango"` to it, so with the concrete target
`"http://example.com/"` the transport is invoked with
`"http://example.com/fango"` instead of the configured URL. -/
theorem C8_url_suffix_divergence :
    (∀ url : String, requestURL_part000 url = url) ∧
    requestURL_part001 "http://example.com/" = "http://example.com/fango" ∧
    requestURL_part001 "http://example.com/" ≠ "http://example.com/" := by
  refine ⟨fun url => rfl, rfl, ?_⟩
  intro h
  simp [requestURL_part001] at h

/-- C9: when `lastQueryTime` is `null` (absent), `waitBeforePoll` waits
zero for every `lastResponseTime` — present or not — and every current
time: the first poll is issued immediately. -/
theorem C9_absent_query_zero_wait (lr : JS) (now : ℚ) :
    waitBeforePoll lr JS.null now = 0 := rfl

/-- C10: a timestamp that is not an actual number — `NaN`, a string, or
any other non-numeric value — fails the `isNumber` guard and is treated as
absent: a failing `lastQueryTime` yields a zero wait (`NaN` in
particular), a failing `lastResponseTime` makes the computation agree with
the absent (`null`) response, and in every case the result is a defined,
non-negative duration. -/
theorem C10_non_numeric_guard (lr lq : JS) (now : ℚ) :
    (isNumber lq = false → waitBeforePoll lr lq now = 0) ∧
    (isNumber lr = false →
      waitBeforePoll lr lq now = waitBeforePoll JS.null lq now) ∧
    waitBeforePoll lr JS.nan now = 0 ∧
    0 ≤ waitBeforePoll lr lq now := by
  refine ⟨?_, ?_, rfl, waitBeforePoll_nonneg lr lq now⟩
  · intro h
    unfold waitBeforePoll
    rw [h]
    simp
  · intro h
    unfold waitBeforePoll
    rw [h]
    simp [isNumber]

/-- Witness for C10 at a string `lastQueryTime` and a `NaN`
`lastResponseTime`. -/
theorem C10_non_numeric_guard_witness :
    waitBeforePoll (JS.num 5) (JS.str "oops") 99 = 0 ∧
    waitBeforePoll JS.nan (JS.num 0) 99 = waitBeforePoll JS.null (JS.num 0) 99 :=
  ⟨(C10_non_numeric_guard (JS.num 5) (JS.str "oops") 99).1 rfl,
   (C10_non_numeric_guard JS.nan (JS.num 0) 99).2.1 rfl⟩
